import Mathlib

/-!
Verification development for the sample-accurate seek-and-decode engine of
`SoundSourceMediaFoundation` (file `soundsourcemediafoundation.cpp`).

The engine (`seekSampleFrame`, `readSampleFramesClamped`, `tryOpen`) is
translated function-by-function from the C++ source.  The native Media
Foundation source reader (`IMFSourceReader`) is the external black box of the
spec (its `ReadSample` / `SetCurrentPosition` calls); it is modelled as a
deterministic oracle `DecoderModel` given by pure functions over an abstract
reader state (a `Nat`).  Mutual recursion between `seekSampleFrame` and
`readSampleFramesClamped` is made total with an explicit fuel parameter; all
theorems either hold for every fuel or quantify over it.

Frame indices are modelled as `Nat`: in this source `frameIndexMin()` is
always `0` (`initFrameIndexRangeOnce(IndexRange::forward(0, ...))`), every
`SINT` frame index handled is nonnegative, and the single spot where signed
arithmetic matters, `std::max(SINT(frameIndex - kNumberOfPrefetchFrames),
frameIndexMin())`, coincides with truncated subtraction `frameIndex - 2112`
on `Nat`.
-/

/-- Modelled from the spec: the `ReadAheadSampleBuffer` class itself is not
among the audited sources (only this caller is).  Spec 4.2 (`ReadAheadBuffer`):
an ordered contiguous store of decoded-but-unconsumed samples; `write`
appends; `readFifo` consumes the oldest samples; `clear` resets content
without changing capacity; growth preserves and relocates unread content.
`readLifo` is the LIFO counterpart of `readFifo` invoked by the source: it
consumes the NEWEST buffered samples, returned as the contiguous tail slice
in stored order.  `data` lists readable samples oldest-first. -/
structure ReadAheadSampleBuffer where
  data : List Int
  capacity : Nat
deriving DecidableEq, Repr

def ReadAheadSampleBuffer.readableLength (b : ReadAheadSampleBuffer) : Nat :=
  b.data.length

def ReadAheadSampleBuffer.clear (b : ReadAheadSampleBuffer) : ReadAheadSampleBuffer :=
  ⟨[], b.capacity⟩

/-- Spec 4.2: `readFifo(maxSamples)` returns up to `maxSamples` oldest
buffered samples and advances the read cursor; fewer if insufficient data. -/
def ReadAheadSampleBuffer.readFifo (b : ReadAheadSampleBuffer) (n : Nat) :
    List Int × ReadAheadSampleBuffer :=
  let k := min n b.data.length
  (b.data.take k, ⟨b.data.drop k, b.capacity⟩)

/-- LIFO consumption: up to `n` newest buffered samples (tail slice, in
stored order), the older samples remain buffered. -/
def ReadAheadSampleBuffer.readLifo (b : ReadAheadSampleBuffer) (n : Nat) :
    List Int × ReadAheadSampleBuffer :=
  let k := min n b.data.length
  (b.data.drop (b.data.length - k), ⟨b.data.take (b.data.length - k), b.capacity⟩)

/-- Spec 4.2: `write(n)` reserves a slice the caller fills; in the source the
slice is filled completely (`DEBUG_ASSERT(writableSlice.size() ==
lockedSampleBufferCount)`), so writing is modelled as appending the samples. -/
def ReadAheadSampleBuffer.write (b : ReadAheadSampleBuffer) (xs : List Int) :
    ReadAheadSampleBuffer :=
  ⟨b.data ++ xs, b.capacity⟩

/-- Reallocation to a larger capacity
(`ReadAheadSampleBuffer(m_sampleBuffer, cap).swap(m_sampleBuffer)`), spec 4.2:
existing unread content is preserved and relocated. -/
def ReadAheadSampleBuffer.grow (b : ReadAheadSampleBuffer) (newCap : Nat) :
    ReadAheadSampleBuffer :=
  ⟨b.data, newCap⟩

/-- Outcome of one `IMFSourceReader::ReadSample` call, classified exactly as
the source classifies it (lines 300-365):
`failed` = `FAILED(hrReadSample)`; `streamError` = `MF_SOURCE_READERF_ERROR`;
`endOfStream` = `MF_SOURCE_READERF_ENDOFSTREAM`; `mediaTypeChanged` =
`MF_SOURCE_READERF_CURRENTMEDIATYPECHANGED`; `sample ts metaOk buffers` = a
decoded block with native timestamp `ts`, where `metaOk = false` models a
failing `GetBufferCount`/`GetTotalLength` and each buffer is a pair of its
`Lock` success flag and its sample payload. -/
inductive PullResult where
  | failed
  | streamError
  | endOfStream
  | mediaTypeChanged
  | sample (ts : Nat) (metaOk : Bool) (buffers : List (Bool × List Int))
deriving DecidableEq, Repr

/-- Deterministic model of the native source reader plus the session-fixed
format data.  `pull s` is `ReadSample` in reader state `s` (result and next
state); `setPos s u` is `SetCurrentPosition` to native unit `u` (`none` =
`FAILED(hrSetCurrentPosition)`).  `ticksPerFrame` realises the
`StreamUnitConverter` (modelled from the spec 4.1: exact bidirectional
conversion; the converter class is not among the audited sources):
`fromFrameIndex i = i * ticksPerFrame`, `toFrameIndex u = u / ticksPerFrame`. -/
structure DecoderModel where
  pull : Nat → PullResult × Nat
  setPos : Nat → Nat → Option Nat
  numFrames : Nat
  channels : Nat
  ticksPerFrame : Nat

/-- Session state mutated by read/seek: `reader` is `m_pSourceReader`
(`none` = released/null), `currentFrameIndex` is `m_currentFrameIndex`
(the value `M.numFrames` = `frameIndexMax()` is the unknown/end sentinel),
`buf` is `m_sampleBuffer`. -/
structure MFState where
  reader : Option Nat
  currentFrameIndex : Nat
  buf : ReadAheadSampleBuffer
deriving DecidableEq, Repr

/-- Observable events of a call: native repositioning attempts
(`SetCurrentPosition` with its success flag), the decode-and-discard
skip-read invocations issued by `seekSampleFrame`, and decoder block pulls
(`ReadSample`). -/
inductive Ev where
  | nativeSeek (units : Nat) (ok : Bool)
  | skipRead (start stop : Nat)
  | pullBlock
deriving DecidableEq, Repr

/-- Request selector for the mutually recursive engine. -/
inductive ECall where
  | seek (target : Nat)
  | read (first count : Nat) (wantOut : Bool)
deriving DecidableEq, Repr

/-- Result of an engine call: final state, event trace, delivered frame
range (half-open, as `IndexRange`), and the samples copied to the caller's
output buffer (empty when the output pointer is null / for seeks). -/
structure ERes where
  st : MFState
  ev : List Ev
  rng : Nat × Nat
  out : List Int
deriving DecidableEq, Repr

/-- `kNumberOfPrefetchFrames` (line 27). -/
def kNumberOfPrefetchFrames : Nat := 2112

/-- `frames2samples` of `SoundSource`: frames times channel count. -/
def frames2samples (M : DecoderModel) (n : Nat) : Nat := n * M.channels

/-- `samples2frames` of `SoundSource`: samples divided by channel count. -/
def samples2frames (M : DecoderModel) (s : Nat) : Nat := s / M.channels

/-- The capacity-doubling loop (lines 372-374):
`while (sampleBufferCapacity < numberOfSamplesToBuffer) sampleBufferCapacity *= 2`.
Fuel-bounded; the engine passes `needed` as fuel, which suffices whenever the
current capacity is positive (`DEBUG_ASSERT(sampleBufferCapacity > 0)`). -/
def growCapLoop : Nat → Nat → Nat → Nat
  | 0, cap, _ => cap
  | fuel + 1, cap, needed =>
      if cap < needed then growCapLoop fuel (cap * 2) needed else cap

/-- Result of the per-sample media-buffer loop (lines 386-452). -/
structure BufsRes where
  st : MFState
  remaining : Nat
  out : List Int
  ok : Bool
deriving DecidableEq, Repr

/-- The media-buffer loop of `readSampleFramesClamped` (lines 386-452): for
each buffer of the pulled block, copy
`min(frames2samples(numberOfFramesRemaining), lockedSampleBufferCount)`
samples directly into the output (when an output buffer was supplied),
advance `m_currentFrameIndex`, and stash the remainder into the sample
buffer.  A failing `GetBufferByIndex`/`Lock` exits the loop prematurely
(`ok = false`), which makes the caller release the reader (lines 454-461). -/
def processBuffers (M : DecoderModel) (w : Bool) :
    MFState → Nat → List (Bool × List Int) → BufsRes
  | st, remaining, [] => ⟨st, remaining, [], true⟩
  | st, remaining, (lockOk, data) :: rest =>
      if lockOk = false then ⟨st, remaining, [], false⟩
      else
        let c := min (frames2samples M remaining) data.length
        let out0 := if w then data.take c else []
        let st1 : MFState :=
          { st with
            currentFrameIndex := st.currentFrameIndex + samples2frames M c,
            buf := st.buf.write (data.drop c) }
        let r := processBuffers M w st1 (remaining - samples2frames M c) rest
        ⟨r.st, r.remaining, out0 ++ r.out, r.ok⟩

/-- Result of the main decode loop. -/
structure LoopRes where
  st : MFState
  ev : List Ev
  remaining : Nat
  out : List Int
deriving DecidableEq, Repr

/-- The main `while (numberOfFramesRemaining > 0)` loop of
`readSampleFramesClamped` (lines 268-462), one recursion step per iteration:
drain the sample buffer via `readLifo` (line 270), stop when satisfied,
stop if the reader is dead, otherwise pull one block via `ReadSample` and
branch on its classification exactly as the source does.  Note that on
`mediaTypeChanged` the source only breaks out of the loop and does NOT
release the reader (lines 328-336), unlike on `streamError` (line 323). -/
def readLoop (M : DecoderModel) : Nat → MFState → Nat → Bool → LoopRes
  | 0, st, remaining, _ => ⟨st, [], remaining, []⟩
  | fuel + 1, st, remaining, w =>
      if remaining = 0 then ⟨st, [], 0, []⟩
      else
        -- lines 269-285: drain the buffered samples (LIFO in this source!)
        let drained := st.buf.readLifo (frames2samples M remaining)
        let d := samples2frames M drained.1.length
        let st1 : MFState :=
          { st with currentFrameIndex := st.currentFrameIndex + d, buf := drained.2 }
        let out0 := if w then drained.1 else []
        let rem1 := remaining - d
        if rem1 = 0 then ⟨st1, [], 0, out0⟩
        else
          match st1.reader with
          | none => ⟨st1, [], rem1, out0⟩  -- line 293: abort if reader is dead
          | some s =>
            match M.pull s with
            | (PullResult.failed, s1) =>
                ⟨{ st1 with reader := some s1 }, [Ev.pullBlock], rem1, out0⟩
            | (PullResult.streamError, _) =>
                ⟨{ st1 with reader := none }, [Ev.pullBlock], rem1, out0⟩
            | (PullResult.endOfStream, s1) =>
                ⟨{ st1 with reader := some s1 }, [Ev.pullBlock], rem1, out0⟩
            | (PullResult.mediaTypeChanged, s1) =>
                ⟨{ st1 with reader := some s1 }, [Ev.pullBlock], rem1, out0⟩
            | (PullResult.sample ts metaOk bufs, s1) =>
                -- lines 338-342: adopt the block timestamp as current position
                let st2 : MFState :=
                  { st1 with reader := some s1, currentFrameIndex := ts / M.ticksPerFrame }
                if metaOk = false then ⟨st2, [Ev.pullBlock], rem1, out0⟩
                else
                  -- lines 366-384: enlarge the sample buffer if necessary
                  let needed := (bufs.map (fun b => b.2.length)).sum
                  let newCap := growCapLoop needed st2.buf.capacity needed
                  let st3 : MFState :=
                    if st2.buf.capacity < newCap
                    then { st2 with buf := st2.buf.grow newCap } else st2
                  let pb := processBuffers M w st3 rem1 bufs
                  if pb.ok = false then
                    ⟨{ pb.st with reader := none }, [Ev.pullBlock], pb.remaining,
                      out0 ++ pb.out⟩
                  else
                    let rest := readLoop M fuel pb.st pb.remaining w
                    ⟨rest.st, Ev.pullBlock :: rest.ev, rest.remaining,
                      out0 ++ pb.out ++ rest.out⟩

/-- The destructive-seek part of `seekSampleFrame` (lines 162-243), entered
with the state and events accumulated by the forward-skip part.  `rec` is the
mutual recursion handle for the skip-reads (calls to
`readSampleFramesClamped` with a null output buffer). -/
def seekDestructive (M : DecoderModel) (rec : ECall → MFState → ERes)
    (st : MFState) (ev : List Ev) (target : Nat) : ERes :=
  if st.currentFrameIndex = target then ⟨st, ev, (target, target), []⟩
  else
    -- lines 163-167: discard decoded samples, invalidate position
    let st1 : MFState :=
      { st with buf := st.buf.clear, currentFrameIndex := M.numFrames }
    match st.reader with
    | none => ⟨st1, ev, (st1.currentFrameIndex, st1.currentFrameIndex), []⟩
    | some s =>
      -- line 179: seekIndex = max(frameIndex - kNumberOfPrefetchFrames, frameIndexMin())
      let seekIndex := target - kNumberOfPrefetchFrames
      let seekPos := seekIndex * M.ticksPerFrame
      match M.setPos s seekPos with
      | none =>
          -- lines 237-242: SetCurrentPosition failed, kill the reader
          ⟨{ st1 with reader := none }, ev ++ [Ev.nativeSeek seekPos false],
            (M.numFrames, M.numFrames), []⟩
      | some s1 =>
          let st2 : MFState := { st1 with reader := some s1 }
          let ev2 := ev ++ [Ev.nativeSeek seekPos true]
          if seekIndex = target then
            -- lines 200-205: at the beginning of the stream, nothing to skip
            ⟨{ st2 with currentFrameIndex := target }, ev2, (target, target), []⟩
          else
            -- lines 207-215: skip-read from the anchor to the target
            let r := rec (ECall.read seekIndex (target - seekIndex) false) st2
            let ev3 := ev2 ++ Ev.skipRead seekIndex target :: r.ev
            if r.rng = (seekIndex, target) then
              if r.st.currentFrameIndex < target then
                -- lines 217-227: one residual skip-read
                let r2 := rec (ECall.read r.st.currentFrameIndex
                    (target - r.st.currentFrameIndex) false) r.st
                let ev4 := ev3 ++ Ev.skipRead r.st.currentFrameIndex target :: r2.ev
                if r2.rng = (r.st.currentFrameIndex, target) then
                  if r2.st.currentFrameIndex = target then
                    ⟨r2.st, ev4, (target, target), []⟩
                  else
                    -- lines 228-235: failed seek, jump to end of stream
                    ⟨{ r2.st with currentFrameIndex := M.numFrames }, ev4,
                      (M.numFrames, M.numFrames), []⟩
                else ⟨r2.st, ev4,
                  (r2.st.currentFrameIndex, r2.st.currentFrameIndex), []⟩
              else
                if r.st.currentFrameIndex = target then
                  ⟨r.st, ev3, (target, target), []⟩
                else
                  ⟨{ r.st with currentFrameIndex := M.numFrames }, ev3,
                    (M.numFrames, M.numFrames), []⟩
            else ⟨r.st, ev3, (r.st.currentFrameIndex, r.st.currentFrameIndex), []⟩

/-- `seekSampleFrame` (lines 136-244): the forward-skip decision (lines
139-161) followed by the destructive seek. -/
def seekAux (M : DecoderModel) (rec : ECall → MFState → ERes)
    (st : MFState) (target : Nat) : ERes :=
  if st.currentFrameIndex < target then
    -- lines 139-152: prefer skipping when the gap is at most
    -- buffered frames + 2 * kNumberOfPrefetchFrames
    let skipMax := samples2frames M st.buf.readableLength + 2 * kNumberOfPrefetchFrames
    if target - st.currentFrameIndex ≤ skipMax then
      let r := rec (ECall.read st.currentFrameIndex
          (target - st.currentFrameIndex) false) st
      let ev := Ev.skipRead st.currentFrameIndex target :: r.ev
      if r.rng = (st.currentFrameIndex, target) then
        seekDestructive M rec r.st ev target
      else
        -- lines 155-159: failed to skip frames before decoding, abort
        ⟨r.st, ev, (r.st.currentFrameIndex, r.st.currentFrameIndex), []⟩
    else seekDestructive M rec st [] target
  else seekDestructive M rec st [] target

/-- `readSampleFramesClamped` (lines 246-472): align to the start of the
range via `seekSampleFrame`, abort with an empty range on misalignment
(lines 252-261), otherwise run the decode loop and report the delivered
range `IndexRange::forward(firstFrameIndex, numberOfFrames)`. -/
def readAux (M : DecoderModel) (rec : ECall → MFState → ERes)
    (st : MFState) (first count : Nat) (w : Bool) : ERes :=
  let r := rec (ECall.seek first) st
  if r.st.currentFrameIndex = first then
    let l := readLoop M (count + 1) r.st count w
    ⟨l.st, r.ev ++ l.ev, (first, first + (count - l.remaining)), l.out⟩
  else ⟨r.st, r.ev, (r.st.currentFrameIndex, r.st.currentFrameIndex), []⟩

/-- The fuel-indexed engine tying the mutual recursion of `seekSampleFrame`
and `readSampleFramesClamped` together. -/
def engine (M : DecoderModel) : Nat → ECall → MFState → ERes
  | 0, _, st => ⟨st, [], (st.currentFrameIndex, st.currentFrameIndex), []⟩
  | fuel + 1, ECall.seek target, st => seekAux M (engine M fuel) st target
  | fuel + 1, ECall.read f n w, st => readAux M (engine M fuel) st f n w

/-- `SoundSourceMediaFoundation::seekSampleFrame`. -/
def seekSampleFrame (M : DecoderModel) (fuel : Nat) (st : MFState)
    (target : Nat) : ERes :=
  engine M fuel (ECall.seek target) st

/-- `SoundSourceMediaFoundation::readSampleFramesClamped` on the clamped
range `[first, first + count)`; `wantOut = false` models a null output
buffer (pure decode-and-discard). -/
def readSampleFramesClamped (M : DecoderModel) (fuel : Nat) (st : MFState)
    (first count : Nat) (wantOut : Bool) : ERes :=
  engine M fuel (ECall.read first count wantOut) st

/-! ### tryOpen (lines 56-121) -/

inductive OpenResult where
  | Succeeded
  | Failed
deriving DecidableEq, Repr

/-- Success flags of the staged platform/decoder calls made by `tryOpen`. -/
structure OpenEnv where
  coInitOk : Bool
  mfStartupOk : Bool
  createReaderOk : Bool
  configureOk : Bool
  readPropsOk : Bool
deriving DecidableEq, Repr

/-- The `HRESULT` members relevant to open/close:  `true` = `SUCCEEDED`. -/
structure OpenState where
  hrCoInitialize : Bool
  hrMFStartup : Bool
deriving DecidableEq, Repr

/-- The externally visible initialization steps `tryOpen` performs, in
order. -/
inductive OpenStep where
  | coInit
  | mfStartup
  | createReader
  | configureStream
  | readProps
  | seekToMin
deriving DecidableEq, Repr

/-- `SoundSourceMediaFoundation::tryOpen` (lines 56-121), staged exactly as
in the source.  Note line 78: after `m_hrMFStartup = MFStartup(MF_VERSION)`
the source tests `FAILED(m_hrCoInitialize)` — the COM flag again — rather
than `m_hrMFStartup`. -/
def tryOpen (env : OpenEnv) (st : OpenState) :
    OpenResult × OpenState × List OpenStep :=
  -- lines 59-64: VERIFY_OR_DEBUG_ASSERT(!SUCCEEDED(m_hrCoInitialize)) -> cannot reopen
  if st.hrCoInitialize then (OpenResult.Failed, st, [])
  else
    -- lines 69-75
    let st1 : OpenState := { st with hrCoInitialize := env.coInitOk }
    if st1.hrCoInitialize = false then
      (OpenResult.Failed, st1, [OpenStep.coInit])
    else
      -- lines 77-82: m_hrMFStartup is assigned, but FAILED(m_hrCoInitialize) is tested
      let st2 : OpenState := { st1 with hrMFStartup := env.mfStartupOk }
      if st2.hrCoInitialize = false then
        (OpenResult.Failed, st2, [OpenStep.coInit, OpenStep.mfStartup])
      else if env.createReaderOk = false then
        (OpenResult.Failed, st2,
          [OpenStep.coInit, OpenStep.mfStartup, OpenStep.createReader])
      else if env.configureOk = false then
        (OpenResult.Failed, st2,
          [OpenStep.coInit, OpenStep.mfStartup, OpenStep.createReader,
            OpenStep.configureStream])
      else if env.readPropsOk = false then
        (OpenResult.Failed, st2,
          [OpenStep.coInit, OpenStep.mfStartup, OpenStep.createReader,
            OpenStep.configureStream, OpenStep.readProps])
      else
        (OpenResult.Succeeded, st2,
          [OpenStep.coInit, OpenStep.mfStartup, OpenStep.createReader,
            OpenStep.configureStream, OpenStep.readProps, OpenStep.seekToMin])

/-! ### Concrete decoder instances used by the trace theorems -/

/-- A well-behaved sequential decoder: reader state = next frame to decode,
blocks of `blockFrames` frames, one media buffer per block, native timestamp
`frame * tpf`, sample values given by `val` at the flat sample index. -/
def seqPull (numFrames blockFrames tpf ch : Nat) (val : Nat → Int)
    (s : Nat) : PullResult × Nat :=
  if s < numFrames then
    let e := min (s + blockFrames) numFrames
    (PullResult.sample (s * tpf) true
      [(true, (List.range ((e - s) * ch)).map (fun i => val (s * ch + i)))], e)
  else (PullResult.endOfStream, s)

/-- Sequential deterministic decoder model with exact native positioning. -/
def seqModel (numFrames blockFrames tpf ch : Nat) (val : Nat → Int) :
    DecoderModel :=
  { pull := seqPull numFrames blockFrames tpf ch val
    setPos := fun _ u => some (u / tpf)
    numFrames := numFrames
    channels := ch
    ticksPerFrame := tpf }

/-- 1000-frame mono stream, 8-frame decoder blocks, sample value = frame
index (injective, so any reordering of delivered samples is visible). -/
def M0 : DecoderModel := seqModel 1000 8 1 1 (fun i => (i : Int))

/-- Freshly opened session on `M0`: position 0, empty 16-sample buffer. -/
def st0 : MFState := ⟨some 0, 0, ⟨[], 16⟩⟩

/-- Session state after reading frames `[0, 2)`: position 2, samples of
frames `[2, 8)` buffered (oldest first). -/
def stA : MFState := (readSampleFramesClamped M0 8 st0 0 2 true).st

/-- Session state after additionally reading frames `[2, 4)`. -/
def stB : MFState := (readSampleFramesClamped M0 8 stA 2 2 true).st

/-- Decoder for the C5 scenario: one good 8-sample block, then a mid-stream
media-type change on every further pull. -/
def c5pull (s : Nat) : PullResult × Nat :=
  if s = 0 then
    (PullResult.sample 0 true [(true, [10, 11, 12, 13, 14, 15, 16, 17])], 1)
  else (PullResult.mediaTypeChanged, s + 1)

def MC5 : DecoderModel :=
  { pull := c5pull
    setPos := fun _ u => some u
    numFrames := 100
    channels := 1
    ticksPerFrame := 1 }

def stC5 : MFState := ⟨some 0, 0, ⟨[], 16⟩⟩

/-- Decoder whose native positioning always fails (C7 scenario). -/
def MC7 : DecoderModel :=
  { pull := fun s => (PullResult.endOfStream, s)
    setPos := fun _ _ => none
    numFrames := 30
    channels := 1
    ticksPerFrame := 1 }

def stC7 : MFState := ⟨some 0, 20, ⟨[3, 4], 8⟩⟩

/-- Decoder for the C8 scenario: native positioning lands the reader in
state 100; the following blocks carry timestamps that differ from the
tracked position (native seeks are inexact), so the destructive seek ends
mispositioned after its bounded skip-reads. -/
def c8pull (s : Nat) : PullResult × Nat :=
  if s = 100 then
    (PullResult.sample 1 true [(true, [20, 21, 22, 23, 24, 25, 26, 27])], 101)
  else if s = 101 then
    (PullResult.sample 5 true [(true, [30, 31, 32, 33])], 102)
  else if s = 102 then
    (PullResult.sample 6 true [(true, [40])], 103)
  else (PullResult.endOfStream, s)

def MC8 : DecoderModel :=
  { pull := c8pull
    setPos := fun _ _ => some 100
    numFrames := 30
    channels := 1
    ticksPerFrame := 1 }

def stC8 : MFState := ⟨some 0, 20, ⟨[7, 8], 16⟩⟩

/-- Large sequential stream for the scenario-C witness (seek backward from
frame 100000 to frame 50000). -/
def Mbig : DecoderModel := seqModel 120000 8 1 1 (fun i => (i : Int))

def stBig : MFState := ⟨some 0, 100000, ⟨[], 16⟩⟩

/-! ### Theorems -/

/-- In a dead session (reader released, position at the end sentinel, buffer
empty) `seekSampleFrame` is a no-op: the destructive branch returns at the
`m_pSourceReader == nullptr` check (lines 169-172) before any native seek. -/
theorem seek_dead (M : DecoderModel) (st : MFState) (hr : st.reader = none)
    (hc : st.currentFrameIndex = M.numFrames) (hb : st.buf.data = [])
    (fuel f : Nat) (hf : f ≤ M.numFrames) :
    engine M fuel (ECall.seek f) st
      = ⟨st, [], (st.currentFrameIndex, st.currentFrameIndex), []⟩ := by
  obtain ⟨rd, cur, bd, bc⟩ := st
  have hrd : rd = none := hr
  have hcur : cur = M.numFrames := hc
  have hbd : bd = [] := hb
  subst hrd hcur hbd
  cases fuel with
  | zero => rfl
  | succ m =>
    simp only [engine, seekAux, seekDestructive, ReadAheadSampleBuffer.clear]
    try dsimp only
    rw [if_neg (show ¬ M.numFrames < f by omega)]
    by_cases he : M.numFrames = f
    · rw [if_pos he]
      simp [he]
    · rw [if_neg he]

/-- In a dead session with an empty buffer, the main decode loop delivers
nothing: the drain finds no samples and the `m_pSourceReader == nullptr`
check (line 293) breaks before any block pull. -/
theorem loop_dead (M : DecoderModel) (st : MFState) (hr : st.reader = none)
    (hb : st.buf.data = []) (fuel n : Nat) (w : Bool) :
    readLoop M fuel st n w = ⟨st, [], n, []⟩ := by
  obtain ⟨rd, cur, bd, bc⟩ := st
  have hrd : rd = none := hr
  have hbd : bd = [] := hb
  subst hrd hbd
  cases fuel with
  | zero => rfl
  | succ m =>
    by_cases hn : n = 0
    · subst hn
      simp [readLoop]
    · simp [readLoop, ReadAheadSampleBuffer.readLifo, frames2samples,
        samples2frames, hn]

/-- In a dead session, every clamped read returns an empty delivered range
at the sentinel position, changes nothing, and emits no event — in
particular it pulls no further block. -/
theorem read_dead (M : DecoderModel) (st : MFState) (hr : st.reader = none)
    (hc : st.currentFrameIndex = M.numFrames) (hb : st.buf.data = [])
    (fuel f n : Nat) (w : Bool) (hf : f ≤ M.numFrames) :
    readSampleFramesClamped M fuel st f n w
      = ⟨st, [], (M.numFrames, M.numFrames), []⟩ := by
  cases fuel with
  | zero => simp [readSampleFramesClamped, engine, hc]
  | succ m =>
    simp only [readSampleFramesClamped, engine, readAux]
    rw [seek_dead M st hr hc hb m f hf]
    try dsimp only
    by_cases he : st.currentFrameIndex = f
    · rw [if_pos he]
      rw [loop_dead M st hr hb (n + 1) n w]
      try dsimp only
      simp [he, hc]
      omega
    · rw [if_neg he]
      simp [hc]

/-- Claim C4.  Every destructive seek (backward, or forward beyond the
skip threshold) computes the native anchor as
`max(target - kNumberOfPrefetchFrames, frameIndexMin)` — on `Nat` with
`frameIndexMin = 0` this is `target - kNumberOfPrefetchFrames` — converts
it to native units, requests native positioning there, and (whenever the
anchor differs from the target) immediately drives the decoder through a
decode-and-discard skip-read of `[anchor, target)`: these are the first two
events of the seek, before any data can be delivered. -/
theorem claim_C4_destructive_anchor (M : DecoderModel) (fuel : Nat)
    (st : MFState) (target s s1 : Nat)
    (halive : st.reader = some s)
    (hne : st.currentFrameIndex ≠ target)
    (hnofwd : st.currentFrameIndex < target →
      samples2frames M st.buf.readableLength + 2 * kNumberOfPrefetchFrames
        < target - st.currentFrameIndex)
    (hpos : M.setPos s ((target - kNumberOfPrefetchFrames) * M.ticksPerFrame)
        = some s1)
    (hanchor : target - kNumberOfPrefetchFrames ≠ target) :
    (seekSampleFrame M (fuel + 1) st target).ev.take 2
      = [Ev.nativeSeek ((target - kNumberOfPrefetchFrames) * M.ticksPerFrame) true,
         Ev.skipRead (target - kNumberOfPrefetchFrames) target] := by
  obtain ⟨rd, cur, buf⟩ := st
  have hrd : rd = some s := halive
  subst hrd
  have hne' : cur ≠ target := hne
  have hdest : ∀ rec : ECall → MFState → ERes,
      (seekDestructive M rec ⟨some s, cur, buf⟩ [] target).ev.take 2
        = [Ev.nativeSeek ((target - kNumberOfPrefetchFrames) * M.ticksPerFrame) true,
           Ev.skipRead (target - kNumberOfPrefetchFrames) target] := by
    intro rec
    simp only [seekDestructive]
    try dsimp only
    rw [if_neg hne']
    rw [hpos]
    try dsimp only
    rw [if_neg hanchor]
    split <;> (try split) <;> (try split) <;> (try split) <;> simp
  simp only [seekSampleFrame, engine, seekAux]
  try dsimp only
  by_cases hlt : cur < target
  · have hgt : samples2frames M buf.readableLength + 2 * kNumberOfPrefetchFrames
        < target - cur := hnofwd hlt
    rw [if_pos hlt, if_neg (show ¬ target - cur ≤
        samples2frames M buf.readableLength + 2 * kNumberOfPrefetchFrames
      by omega)]
    exact hdest _
  · rw [if_neg hlt]
    exact hdest _

/-- Witness for claim C4, scenario C of the spec: seeking backward from
frame 100000 to frame 50000 computes anchor 47888 and first issues the
native seek there, then the skip-read of `[47888, 50000)`. -/
theorem claim_C4_destructive_anchor_witness :
    stBig.currentFrameIndex ≠ 50000 ∧
    50000 - kNumberOfPrefetchFrames = 47888 ∧
    Mbig.setPos 0 ((50000 - kNumberOfPrefetchFrames) * Mbig.ticksPerFrame)
      = some 47888 ∧
    (seekSampleFrame Mbig 9 stBig 50000).ev.take 2
      = [Ev.nativeSeek ((50000 - kNumberOfPrefetchFrames) * Mbig.ticksPerFrame) true,
         Ev.skipRead (50000 - kNumberOfPrefetchFrames) 50000] := by
  refine ⟨by decide, by decide, rfl, ?_⟩
  exact claim_C4_destructive_anchor Mbig 8 stBig 50000 0 47888 rfl (by decide)
    (fun h => absurd h (by decide)) rfl (by decide)

/-- Claim C7.  If `SetCurrentPosition` fails during a destructive seek, the
reader is released for good (line 241), the position stays at the
`frameIndexMax` sentinel (set at line 167), and every subsequent clamped
read returns an empty delivered range without pulling any block. -/
theorem claim_C7_native_seek_failure (M : DecoderModel) (fuel : Nat)
    (st : MFState) (target s : Nat)
    (halive : st.reader = some s)
    (hback : target < st.currentFrameIndex)
    (hfail : M.setPos s ((target - kNumberOfPrefetchFrames) * M.ticksPerFrame)
        = none) :
    (seekSampleFrame M (fuel + 1) st target).st.reader = none ∧
    (seekSampleFrame M (fuel + 1) st target).st.currentFrameIndex
      = M.numFrames ∧
    ∀ fuel2 f n w, f ≤ M.numFrames →
      readSampleFramesClamped M fuel2
          (seekSampleFrame M (fuel + 1) st target).st f n w
        = ⟨(seekSampleFrame M (fuel + 1) st target).st, [],
           (M.numFrames, M.numFrames), []⟩ := by
  have hres : seekSampleFrame M (fuel + 1) st target
      = ⟨⟨none, M.numFrames, st.buf.clear⟩,
         [Ev.nativeSeek ((target - kNumberOfPrefetchFrames) * M.ticksPerFrame)
            false],
         (M.numFrames, M.numFrames), []⟩ := by
    obtain ⟨rd, cur, buf⟩ := st
    have hrd : rd = some s := halive
    subst hrd
    have hback' : target < cur := hback
    simp only [seekSampleFrame, engine, seekAux]
    try dsimp only
    rw [if_neg (show ¬ cur < target by omega)]
    simp only [seekDestructive]
    try dsimp only
    rw [if_neg (show ¬ cur = target by omega)]
    rw [hfail]
    try dsimp only
    simp
  refine ⟨by rw [hres], by rw [hres], ?_⟩
  intro fuel2 f n w hf
  rw [hres]
  exact read_dead M _ rfl rfl (by simp [ReadAheadSampleBuffer.clear]) fuel2 f n w hf

/-- Witness for claim C7: decoder whose native positioning fails, session at
frame 20, destructive seek to frame 5. -/
theorem claim_C7_native_seek_failure_witness :
    5 < stC7.currentFrameIndex ∧
    MC7.setPos 0 ((5 - kNumberOfPrefetchFrames) * MC7.ticksPerFrame) = none ∧
    (seekSampleFrame MC7 4 stC7 5).st.reader = none ∧
    (seekSampleFrame MC7 4 stC7 5).st.currentFrameIndex = MC7.numFrames ∧
    ∀ fuel2 f n w, f ≤ MC7.numFrames →
      readSampleFramesClamped MC7 fuel2 (seekSampleFrame MC7 4 stC7 5).st f n w
        = ⟨(seekSampleFrame MC7 4 stC7 5).st, [],
           (MC7.numFrames, MC7.numFrames), []⟩ := by
  have h := claim_C7_native_seek_failure MC7 3 stC7 5 0 rfl (by decide) rfl
  exact ⟨by decide, rfl, h.1, h.2.1, h.2.2⟩

/-- Claim C8.  In a destructive seek whose native positioning succeeds, when
the skip-read from the anchor completes (delivers its full range) but the
decoder's actually-reached position is still short of the target, exactly
one residual skip-read is attempted; if afterwards the position still does
not equal the target, `m_currentFrameIndex` is set to the `frameIndexMax`
sentinel and the seek returns — no further skip-read or native seek follows
(the trace ends with the residual skip-read's events), and the reader handle
is left untouched, so the session stays alive. -/
theorem claim_C8_seek_mismatch (M : DecoderModel) (fuel : Nat)
    (st st1 st2 : MFState) (target s s1 r2 : Nat)
    (ev1 ev2 : List Ev) (o1 o2 : List Int)
    (halive : st.reader = some s)
    (hback : target < st.currentFrameIndex)
    (hpos : M.setPos s ((target - kNumberOfPrefetchFrames) * M.ticksPerFrame)
        = some s1)
    (hanchor : target - kNumberOfPrefetchFrames ≠ target)
    (h1 : readSampleFramesClamped M fuel
        ⟨some s1, M.numFrames, st.buf.clear⟩
        (target - kNumberOfPrefetchFrames)
        (target - (target - kNumberOfPrefetchFrames)) false
        = ⟨st1, ev1, (target - kNumberOfPrefetchFrames, target), o1⟩)
    (hlt : st1.currentFrameIndex < target)
    (h2 : readSampleFramesClamped M fuel st1 st1.currentFrameIndex
        (target - st1.currentFrameIndex) false
        = ⟨st2, ev2, (st1.currentFrameIndex, target), o2⟩)
    (hne2 : st2.currentFrameIndex ≠ target)
    (halive2 : st2.reader = some r2) :
    seekSampleFrame M (fuel + 1) st target
      = ⟨{ st2 with currentFrameIndex := M.numFrames },
         Ev.nativeSeek ((target - kNumberOfPrefetchFrames) * M.ticksPerFrame)
             true
           :: Ev.skipRead (target - kNumberOfPrefetchFrames) target
           :: (ev1 ++ Ev.skipRead st1.currentFrameIndex target :: ev2),
         (M.numFrames, M.numFrames), []⟩ ∧
    ({ st2 with currentFrameIndex := M.numFrames } : MFState).reader
      = some r2 := by
  constructor
  · obtain ⟨rd, cur, buf⟩ := st
    have hrd : rd = some s := halive
    subst hrd
    have hback' : target < cur := hback
    simp only [readSampleFramesClamped] at h1 h2
    try dsimp only at h1 h2
    simp only [seekSampleFrame, engine, seekAux]
    try dsimp only
    rw [if_neg (show ¬ cur < target by omega)]
    simp only [seekDestructive]
    try dsimp only
    rw [if_neg (show ¬ cur = target by omega)]
    rw [hpos]
    try dsimp only
    rw [if_neg hanchor]
    rw [h1]
    try dsimp only
    rw [if_pos rfl, if_pos hlt]
    rw [h2]
    try dsimp only
    rw [if_pos rfl, if_neg hne2]
    simp
  · simp [halive2]

/-- Witness for claim C8 on the decoder `MC8`, whose inexact native
positioning makes both skip-reads complete while the tracked position ends
at frame 7 instead of the target 10: the position is invalidated to the
sentinel 30 and the reader stays alive (state 103). -/
theorem claim_C8_seek_mismatch_witness :
    10 < stC8.currentFrameIndex ∧
    seekSampleFrame MC8 7 stC8 10
      = ⟨⟨some 103, 30, ⟨[], 16⟩⟩,
         [Ev.nativeSeek 0 true, Ev.skipRead 0 10, Ev.nativeSeek 0 true,
          Ev.pullBlock, Ev.pullBlock, Ev.skipRead 7 10, Ev.pullBlock],
         (30, 30), []⟩ ∧
    (⟨some 103, 30, ⟨[], 16⟩⟩ : MFState).reader = some 103 := by
  have h := claim_C8_seek_mismatch MC8 6 stC8
    ⟨some 102, 7, ⟨[32, 33], 16⟩⟩ ⟨some 103, 7, ⟨[], 16⟩⟩ 10 0 100 103
    [Ev.nativeSeek 0 true, Ev.pullBlock, Ev.pullBlock] [Ev.pullBlock] [] []
    rfl (by decide) rfl (by decide) (by decide) (by decide) (by decide)
    (by decide) rfl
  exact ⟨by decide, by simpa using h.1, rfl⟩

/-- Claim C1.  The claim states that `readSampleFramesClamped` drains the
read-ahead sample buffer in strict FIFO order, so the delivered sample
sequence equals decode order.  This is false on the code: line 270 calls
`m_sampleBuffer.readLifo(...)`.  In the state `stA` (position 2, decoded
samples of frames `[2, 8)` buffered oldest-first), reading frames `[2, 4)`
delivers the NEWEST buffered samples — values `[6, 7]` — instead of the
oldest decoded ones `[2, 3]`. -/
theorem claim_C1_lifo_drain :
    stA.buf.data = [2, 3, 4, 5, 6, 7] ∧
    stA.currentFrameIndex = 2 ∧
    (readSampleFramesClamped M0 8 stA 2 2 true).rng = (2, 4) ∧
    (readSampleFramesClamped M0 8 stA 2 2 true).out = [6, 7] ∧
    (readSampleFramesClamped M0 8 stA 2 2 true).out ≠ [2, 3] := by
  decide

/-- Claim C2.  Two-run determinism fails on the code: on the deterministic
sequential decoder `M0`, from state `stB` the read of `R = [4, 6)` delivers
values `[4, 5]`; after seeking elsewhere (frame 20) and re-reading the same
range `R`, the delivered values are `[6, 7]` — not byte-identical, although
the decoder stays live throughout.  Root cause is the LIFO draining of the
read-ahead buffer (line 270), which makes delivered data depend on the
buffer-fill history. -/
theorem claim_C2_determinism_broken :
    (readSampleFramesClamped M0 8 stB 4 2 true).out = [4, 5] ∧
    (readSampleFramesClamped M0 8
        (seekSampleFrame M0 8 (readSampleFramesClamped M0 8 stB 4 2 true).st 20).st
        4 2 true).out = [6, 7] ∧
    (readSampleFramesClamped M0 8 stB 4 2 true).out
      ≠ (readSampleFramesClamped M0 8
          (seekSampleFrame M0 8 (readSampleFramesClamped M0 8 stB 4 2 true).st 20).st
          4 2 true).out ∧
    (readSampleFramesClamped M0 8
        (seekSampleFrame M0 8 (readSampleFramesClamped M0 8 stB 4 2 true).st 20).st
        4 2 true).st.reader ≠ none := by
  decide

/-- Claim C3.  For the forward seek from `stA` (position 2, 6 samples
buffered) to frame 4 the gap (2) is within
`bufferedReadableFrames + 2 * kNumberOfPrefetchFrames`, and indeed no native
seek is issued — the event trace is exactly one skip-read (that part of the
claim holds).  But the second part fails: the samples then delivered for
frames `[4, 6)` are `[4, 5]`, whereas one contiguous sequential read
`[2, 6)` delivers `[6, 7]` for the same frames (positions 2..3 of its
output) — again due to the LIFO buffer draining. -/
theorem claim_C3_skip_vs_contiguous :
    (seekSampleFrame M0 8 stA 4).ev = [Ev.skipRead 2 4] ∧
    (readSampleFramesClamped M0 8 (seekSampleFrame M0 8 stA 4).st 4 2 true).out
      = [4, 5] ∧
    (readSampleFramesClamped M0 8 stA 2 4 true).out = [4, 5, 6, 7] ∧
    (readSampleFramesClamped M0 8 (seekSampleFrame M0 8 stA 4).st 4 2 true).out
      ≠ ((readSampleFramesClamped M0 8 stA 2 4 true).out).drop 2 := by
  decide

/-- Claim C5.  When a block pull reports
`MF_SOURCE_READERF_CURRENTMEDIATYPECHANGED`, the code stops and returns the
partial result (here frames `[0, 8)` of the requested `[0, 12)`), but it
does NOT release the decoder handle: `m_pSourceReader` stays non-null
(lines 328-336 have no `safeRelease`, unlike the `MF_SOURCE_READERF_ERROR`
branch at line 323).  The claim says the handle is released. -/
theorem claim_C5_media_type_changed :
    (readSampleFramesClamped MC5 6 stC5 0 12 true).rng = (0, 8) ∧
    (readSampleFramesClamped MC5 6 stC5 0 12 true).out
      = [10, 11, 12, 13, 14, 15, 16, 17] ∧
    (readSampleFramesClamped MC5 6 stC5 0 12 true).st.reader = some 2 ∧
    (readSampleFramesClamped MC5 6 stC5 0 12 true).st.reader ≠ none := by
  decide

/-- Open environment where COM initialization succeeds, `MFStartup` fails,
and every later stage succeeds. -/
def envC6 : OpenEnv := ⟨true, false, true, true, true⟩

/-- Claim C6.  If `MFStartup` fails during open, `tryOpen` is claimed to
return `OpenResult::Failed`.  On the code it does not: line 78 re-tests
`FAILED(m_hrCoInitialize)` instead of `m_hrMFStartup` (the log message
"failed to initialize Media Foundation" shows the intent), so with a failed
`MFStartup` and all other stages succeeding, `tryOpen` runs to completion
and returns `Succeeded`. -/
theorem claim_C6_mfstartup_not_checked :
    (tryOpen envC6 ⟨false, false⟩).2.1.hrMFStartup = false ∧
    (tryOpen envC6 ⟨false, false⟩).1 = OpenResult.Succeeded ∧
    (tryOpen envC6 ⟨false, false⟩).1 ≠ OpenResult.Failed := by
  decide

/-- Claim C10.  Calling `tryOpen` on a session that is already successfully
open (`SUCCEEDED(m_hrCoInitialize)`) returns `Failed` immediately
(lines 59-64): the session state is unchanged and no initialization step is
performed. -/
theorem claim_C10_reopen_fails (env : OpenEnv) (st : OpenState)
    (h : st.hrCoInitialize = true) :
    tryOpen env st = (OpenResult.Failed, st, []) := by
  simp [tryOpen, h]

/-- Witness for claim C10 at a concrete open session and environment. -/
theorem claim_C10_reopen_fails_witness :
    (OpenState.mk true false).hrCoInitialize = true ∧
    tryOpen ⟨true, true, true, true, true⟩ ⟨true, false⟩
      = (OpenResult.Failed, ⟨true, false⟩, []) :=
  ⟨rfl, claim_C10_reopen_fails ⟨true, true, true, true, true⟩ ⟨true, false⟩ rfl⟩

/-- The capacity-doubling loop of lines 370-374, run with the fuel the
engine supplies, returns the old capacity multiplied by the least power of
two that makes it hold `needed` samples. -/
theorem growCapLoop_spec (fuel cap needed : Nat) (h1 : 1 ≤ cap)
    (h2 : needed ≤ cap * 2 ^ fuel) :
    ∃ k, growCapLoop fuel cap needed = cap * 2 ^ k ∧ needed ≤ cap * 2 ^ k ∧
      ∀ j, j < k → cap * 2 ^ j < needed := by
  induction fuel generalizing cap with
  | zero =>
    refine ⟨0, by simp [growCapLoop], by simpa using h2, by omega⟩
  | succ n ih =>
    by_cases hc : cap < needed
    · have h2' : needed ≤ cap * 2 * 2 ^ n := by
        calc needed ≤ cap * 2 ^ (n + 1) := h2
          _ = cap * 2 * 2 ^ n := by ring
      obtain ⟨k, hk, hle, hmin⟩ := ih (cap * 2) (by omega) h2'
      refine ⟨k + 1, ?_, ?_, ?_⟩
      · rw [show growCapLoop (n + 1) cap needed = growCapLoop n (cap * 2) needed
          from by simp [growCapLoop, hc], hk]
        ring
      · calc needed ≤ cap * 2 * 2 ^ k := hle
          _ = cap * 2 ^ (k + 1) := by ring
      · intro j hj
        match j with
        | 0 => simpa using hc
        | j' + 1 =>
          calc cap * 2 ^ (j' + 1) = cap * 2 * 2 ^ j' := by ring
            _ < needed := hmin j' (by omega)
    · exact ⟨0, by simp [growCapLoop, hc], by simpa using Nat.not_lt.mp hc, by omega⟩

/-- Claim C9.  When a decoded block needs `needed` samples and the buffer's
capacity is positive (`DEBUG_ASSERT(sampleBufferCapacity > 0)`), the new
capacity computed by the source's doubling loop is the old capacity times
the least sufficient power of two — in particular never smaller than before
and large enough — and the reallocation preserves all buffered-but-unread
samples in order: reading everything back after growth returns exactly the
original data. -/
theorem claim_C9_growth (buf : ReadAheadSampleBuffer) (needed : Nat)
    (h : 1 ≤ buf.capacity) :
    ∃ k, growCapLoop needed buf.capacity needed = buf.capacity * 2 ^ k ∧
      needed ≤ growCapLoop needed buf.capacity needed ∧
      buf.capacity ≤ growCapLoop needed buf.capacity needed ∧
      (∀ j, j < k → buf.capacity * 2 ^ j < needed) ∧
      (buf.grow (growCapLoop needed buf.capacity needed)).data = buf.data ∧
      (buf.grow (growCapLoop needed buf.capacity needed)).readFifo
          buf.data.length
        = (buf.data, ⟨[], growCapLoop needed buf.capacity needed⟩) := by
  have hfe : needed ≤ buf.capacity * 2 ^ needed := by
    calc needed ≤ 2 ^ needed := Nat.le_of_lt (Nat.lt_two_pow needed)
      _ = 1 * 2 ^ needed := (one_mul _).symm
      _ ≤ buf.capacity * 2 ^ needed := Nat.mul_le_mul_right _ h
  obtain ⟨k, hk, hle, hmin⟩ := growCapLoop_spec needed buf.capacity needed h hfe
  refine ⟨k, hk, by omega, ?_, hmin, rfl, ?_⟩
  · rw [hk]
    calc buf.capacity = buf.capacity * 1 := (mul_one _).symm
      _ ≤ buf.capacity * 2 ^ k := Nat.mul_le_mul_left _ (Nat.one_le_two_pow)
  · simp [ReadAheadSampleBuffer.grow, ReadAheadSampleBuffer.readFifo]

/-- Witness for claim C9 at a concrete buffer: capacity 4 with 3 unread
samples, incoming block of 7 samples (grows 4 → 8). -/
theorem claim_C9_growth_witness :
    1 ≤ (ReadAheadSampleBuffer.mk [5, 6, 7] 4).capacity ∧
    ∃ k, growCapLoop 7 (ReadAheadSampleBuffer.mk [5, 6, 7] 4).capacity 7
        = (ReadAheadSampleBuffer.mk [5, 6, 7] 4).capacity * 2 ^ k ∧
      7 ≤ growCapLoop 7 (ReadAheadSampleBuffer.mk [5, 6, 7] 4).capacity 7 ∧
      (ReadAheadSampleBuffer.mk [5, 6, 7] 4).capacity
        ≤ growCapLoop 7 (ReadAheadSampleBuffer.mk [5, 6, 7] 4).capacity 7 ∧
      (∀ j, j < k →
        (ReadAheadSampleBuffer.mk [5, 6, 7] 4).capacity * 2 ^ j < 7) ∧
      ((ReadAheadSampleBuffer.mk [5, 6, 7] 4).grow
          (growCapLoop 7 (ReadAheadSampleBuffer.mk [5, 6, 7] 4).capacity 7)).data
        = (ReadAheadSampleBuffer.mk [5, 6, 7] 4).data ∧
      ((ReadAheadSampleBuffer.mk [5, 6, 7] 4).grow
          (growCapLoop 7 (ReadAheadSampleBuffer.mk [5, 6, 7] 4).capacity 7)).readFifo
          (ReadAheadSampleBuffer.mk [5, 6, 7] 4).data.length
        = ((ReadAheadSampleBuffer.mk [5, 6, 7] 4).data,
           ⟨[], growCapLoop 7 (ReadAheadSampleBuffer.mk [5, 6, 7] 4).capacity 7⟩) :=
  ⟨by decide, claim_C9_growth (ReadAheadSampleBuffer.mk [5, 6, 7] 4) 7 (by decide)⟩
